import Mathlib

/-!
Shallow embedding of `src/presentation/create_pptx.py`: a script that builds a
fixed ten-slide presentation with the python-pptx library and saves it to a
fixed path. Lengths are kept exact as integers measured in thousandths of an
EMU (914400 EMU per inch), mirroring `pptx.util.Inches` / `pptx.util.Pt`:
every length literal in the script has at most three decimals, so this unit
represents each of them exactly, and every length the script halves with `/2`
is even in this unit, so integer division agrees with Python's real division
throughout. Text, colors, fills and shape geometry are embedded structurally;
transparencies (never compared by any claim) are kept in hundredths. The
filesystem is
abstracted as a predicate `fs : String → Bool` saying which paths exist
(`add_picture` opens its path and raises when the file is missing).
-/

namespace CreatePptx

/-- Embeds `pptx.dml.color.RGBColor`: an (r, g, b) byte triple. -/
structure RGBColor where
  red : Nat
  green : Nat
  blue : Nat
deriving DecidableEq

/-- `pptx.util.Inches`, in thousandths: `Inches 700` embeds `Inches(0.7)`,
yielding an exact length in thousandths of an EMU (914400 EMU per inch). -/
def Inches (milliInches : Int) : Int := milliInches * 914400

/-- `pptx.util.Pt`: a whole number of points (12700 EMU per point), in the
same thousandths-of-an-EMU unit as `Inches`. -/
def Pt (points : Int) : Int := points * 12700 * 1000

/-- `ROOT = Path(__file__).resolve().parent` (line 12): the directory holding
the script. The script lives at `presentation/create_pptx.py`, so its parent
directory is `presentation`; the absolute prefix of the resolved path plays no
role in any claim and is omitted. -/
def ROOT : String := "presentation"

/-- `ASSETS = ROOT / "assets"` (line 13). -/
def ASSETS : String := ROOT ++ "/assets"

/-- `OUT = ROOT / "Selenium_Automation_Framework_AI_Healing.pptx"` (line 14). -/
def OUT : String := ROOT ++ "/Selenium_Automation_Framework_AI_Healing.pptx"

/-- Theme color `INK` (line 18). -/
def INK : RGBColor := ⟨234, 242, 255⟩

/-- Theme color `MUTED` (line 19). -/
def MUTED : RGBColor := ⟨190, 205, 230⟩

/-- Theme color `BG` (line 20): the dark slide background. -/
def BG : RGBColor := ⟨11, 16, 32⟩

/-- Accent color `C1` (cyan, line 22). -/
def C1 : RGBColor := ⟨110, 231, 255⟩

/-- Accent color `C2` (purple, line 23). -/
def C2 : RGBColor := ⟨167, 139, 250⟩

/-- Accent color `C3` (green, line 24). -/
def C3 : RGBColor := ⟨52, 211, 153⟩

/-- Accent color `C4` (amber, line 25). -/
def C4 : RGBColor := ⟨245, 158, 11⟩

/-- `pptx.enum.shapes.MSO_AUTO_SHAPE_TYPE` (only the members the script uses). -/
inductive MSO_AUTO_SHAPE_TYPE where
  | ROUNDED_RECTANGLE
  | RECTANGLE
deriving DecidableEq

/-- `pptx.enum.shapes.MSO_CONNECTOR` (only the member the script uses). -/
inductive MSO_CONNECTOR where
  | STRAIGHT
deriving DecidableEq

/-- `pptx.enum.text.PP_ALIGN` (only the members the script uses). -/
inductive PP_ALIGN where
  | LEFT
  | RIGHT
  | CENTER
deriving DecidableEq

/-- A text run: its text plus the font properties the script assigns
(`run.font.size`, `run.font.bold`, `run.font.color.rgb`). A freshly created
run (`p.add_run()`) has empty text and no explicit font properties. -/
structure Run where
  text : String := ""
  fontSize : Option Int := none
  fontBold : Option Bool := none
  fontColor : Option RGBColor := none
deriving DecidableEq

/-- A paragraph of a text frame: alignment, outline level, paragraph-level
font properties (`p.font.size`, `p.font.color.rgb`) and its runs. A fresh
paragraph (after `tf.clear()` or from `tf.add_paragraph()`) is empty. -/
structure Paragraph where
  alignment : Option PP_ALIGN := none
  level : Nat := 0
  fontSize : Option Int := none
  fontColor : Option RGBColor := none
  runs : List Run := []
deriving DecidableEq

/-- A fill (`shape.fill` / `slide.background.fill`): whether `.solid()` was
called, the fore color, the transparency the script assigns (in hundredths:
`25` embeds the literal `0.25`), and whether `.background()` was called
(no-fill). -/
structure FillFormat where
  solid : Bool := false
  foreColor : Option RGBColor := none
  transparency : Option Int := none
  background : Bool := false
deriving DecidableEq

/-- A line format (`shape.line`): color, transparency, width and its fill. -/
structure LineFormat where
  color : Option RGBColor := none
  transparency : Option Int := none
  width : Option Int := none
  fill : FillFormat := {}
deriving DecidableEq

/-- The kind of a shape together with its geometry (lengths in thousandths
of an EMU, see `Inches`).
`picture` keeps its file path and optional explicit width/height (when a
dimension is omitted python-pptx scales from the image's native size);
`connector` keeps its two endpoints as passed to `add_connector`. -/
inductive ShapeKind where
  | autoShape (shapeType : MSO_AUTO_SHAPE_TYPE) (left top width height : Int)
  | textbox (left top width height : Int)
  | picture (path : String) (left top : Int) (width height : Option Int)
  | connector (ctype : MSO_CONNECTOR) (beginX beginY endX endY : Int)
deriving DecidableEq

/-- A shape on a slide: kind/geometry, fill, line, and its text frame as a
list of paragraphs (empty for pictures and connectors). -/
structure Shape where
  kind : ShapeKind
  fill : FillFormat := {}
  line : LineFormat := {}
  textFrame : List Paragraph := []
deriving DecidableEq

/-- One recorded mutation of a slide, used to state ordering facts (for
instance that the background is set before any shape is added). -/
inductive SlideOp where
  | setBackground
  | addShape
deriving DecidableEq

/-- A slide: its background fill, its shapes in insertion order, and the log
of mutations in program order. -/
structure Slide where
  backgroundFill : FillFormat := {}
  shapes : List Shape := []
  opsLog : List SlideOp := []
deriving DecidableEq

/-- `s.background.fill.solid()`. -/
def Slide.backgroundSolid (s : Slide) : Slide :=
  { s with backgroundFill := { s.backgroundFill with solid := true },
           opsLog := s.opsLog ++ [SlideOp.setBackground] }

/-- `s.background.fill.fore_color.rgb = c`. -/
def Slide.backgroundColorRgb (s : Slide) (c : RGBColor) : Slide :=
  { s with backgroundFill := { s.backgroundFill with foreColor := some c },
           opsLog := s.opsLog ++ [SlideOp.setBackground] }

/-- Appending a shape to `slide.shapes` (what every `add_*` call does). -/
def Slide.appendShape (s : Slide) (sh : Shape) : Slide :=
  { s with shapes := s.shapes ++ [sh], opsLog := s.opsLog ++ [SlideOp.addShape] }

/-- The presentation: slide size (set on lines 130-131) and the slides in
the order they were added. -/
structure Pres where
  slide_width : Int
  slide_height : Int
  slides : List Slide := []
deriving DecidableEq

/-- The one error the script can raise while building slides: `add_picture`
opens its path and raises when the file does not exist. -/
inductive PptxError where
  | fileNotFound (path : String)
deriving DecidableEq

/-- An observable side effect of `make`: `prs.save(str(OUT))` (line 377) and
`print(...)` (line 378). -/
inductive Effect where
  | write (path : String) (content : Pres)
  | print (line : String)
deriving DecidableEq

/-- `_set_text(run, text, size, bold, color)` (lines 28-32): sets the run's
text and font size / bold / color. -/
def _set_text (run : Run) (text : String) (size : Int) (bold : Bool)
    (color : RGBColor) : Run :=
  { run with text := text, fontSize := some (Pt size), fontBold := some bold,
             fontColor := some color }

/-- Geometry accessors. Only the `autoShape` case is ever read by `make`
(it reads back the geometry of flow boxes to place arrows); the remaining
cases are included for totality. -/
def Shape.left (sh : Shape) : Int :=
  match sh.kind with
  | ShapeKind.autoShape _ l _ _ _ => l
  | ShapeKind.textbox l _ _ _ => l
  | ShapeKind.picture _ l _ _ _ => l
  | ShapeKind.connector _ x1 _ x2 _ => min x1 x2

/-- Top coordinate of a shape; see `Shape.left`. -/
def Shape.top (sh : Shape) : Int :=
  match sh.kind with
  | ShapeKind.autoShape _ _ t _ _ => t
  | ShapeKind.textbox _ t _ _ => t
  | ShapeKind.picture _ _ t _ _ => t
  | ShapeKind.connector _ _ y1 _ y2 => min y1 y2

/-- Width of a shape; see `Shape.left`. -/
def Shape.width (sh : Shape) : Int :=
  match sh.kind with
  | ShapeKind.autoShape _ _ _ w _ => w
  | ShapeKind.textbox _ _ w _ => w
  | ShapeKind.picture _ _ _ w _ => w.getD 0
  | ShapeKind.connector _ x1 _ x2 _ => |x2 - x1|

/-- Height of a shape; see `Shape.left`. -/
def Shape.height (sh : Shape) : Int :=
  match sh.kind with
  | ShapeKind.autoShape _ _ _ _ h => h
  | ShapeKind.textbox _ _ _ h => h
  | ShapeKind.picture _ _ _ _ h => h.getD 0
  | ShapeKind.connector _ _ y1 _ y2 => |y2 - y1|

/-- `add_title(slide, title, subtitle)` (lines 35-56): adds one rounded
rectangle at a fixed position with a deep-navy fill, writes the title as a
bold 34pt run on the first (cleared) paragraph, and — only when `subtitle` is
truthy (`if subtitle:` on line 51, so a present non-empty string) — appends a
second paragraph with a 16pt muted run. -/
def add_title (slide : Slide) (title : String) (subtitle : Option String) :
    Slide :=
  let p : Paragraph :=
    { alignment := some PP_ALIGN.LEFT, runs := [_set_text {} title 34 true INK] }
  let tf : List Paragraph :=
    match subtitle with
    | some sub =>
        if sub = "" then [p]
        else
          [p, { alignment := some PP_ALIGN.LEFT,
                runs := [_set_text {} sub 16 false MUTED] }]
    | none => [p]
  let box : Shape :=
    { kind := ShapeKind.autoShape MSO_AUTO_SHAPE_TYPE.ROUNDED_RECTANGLE
        (Inches 700) (Inches 600) (Inches 12000) (Inches 1400),
      fill := { solid := true, foreColor := some ⟨2, 6, 23⟩,
                transparency := some 25 },
      line := { color := some ⟨255, 255, 255⟩, transparency := some 85 },
      textFrame := tf }
  slide.appendShape box

/-- `add_footer(slide, text)` (lines 58-65): a textbox at a fixed position
holding one right-aligned 10pt muted run. -/
def add_footer (slide : Slide) (text : String) : Slide :=
  let p : Paragraph :=
    { alignment := some PP_ALIGN.RIGHT, runs := [_set_text {} text 10 false MUTED] }
  let box : Shape :=
    { kind := ShapeKind.textbox (Inches 700) (Inches 7050) (Inches 12000)
        (Inches 300),
      textFrame := [p] }
  slide.appendShape box

/-- `add_bullets(slide, x, y, w, h, items, font_size)` (lines 68-78): adds a
textbox and fills it with one paragraph per item. `tf.clear()` leaves one
empty paragraph; iteration index 0 writes into that cleared paragraph
(`tf.paragraphs[0]`) while later indices append fresh paragraphs
(`tf.add_paragraph()`) — since `p.text = it` replaces the paragraph content
with a single plain run, both branches yield the same paragraph value, and an
empty `items` list leaves the single empty paragraph untouched. Returns the
textbox. -/
def add_bullets (slide : Slide) (x y w h : Int) (items : List String)
    (font_size : Int) : Slide × Shape :=
  let cleared : List Paragraph := [{}]
  let tf : List Paragraph :=
    if items.isEmpty then cleared
    else
      items.map fun it =>
        { runs := [{ text := it }], level := 0, fontSize := some (Pt font_size),
          fontColor := some INK }
  let box : Shape := { kind := ShapeKind.textbox x y w h, textFrame := tf }
  (slide.appendShape box, box)

/-- `kpi_card(slide, x, y, w, h, heading, value, accent)` (lines 81-102):
adds the rounded-rectangle card at (x, y, w, h), then the accent bar — a
plain rectangle at the same (x, y) of width `Inches(0.10)` and height `h`
filled with the accent color and borderless (`bar.line.fill.background()`) —
and finally writes heading/value paragraphs into the card's text frame (the
card object, already on the slide, is what receives the text). -/
def kpi_card (slide : Slide) (x y w h : Int) (heading value : String)
    (accent : RGBColor) : Slide :=
  let p1 : Paragraph := { runs := [_set_text {} heading 12 false MUTED] }
  let p2 : Paragraph := { runs := [_set_text {} value 18 true INK] }
  let card : Shape :=
    { kind := ShapeKind.autoShape MSO_AUTO_SHAPE_TYPE.ROUNDED_RECTANGLE x y w h,
      fill := { solid := true, foreColor := some ⟨2, 6, 23⟩,
                transparency := some 18 },
      line := { color := some ⟨255, 255, 255⟩, transparency := some 86 },
      textFrame := [p1, p2] }
  let bar : Shape :=
    { kind := ShapeKind.autoShape MSO_AUTO_SHAPE_TYPE.RECTANGLE x y
        (Inches 100) h,
      fill := { solid := true, foreColor := some accent },
      line := { fill := { background := true } } }
  (slide.appendShape card).appendShape bar

/-- `arrow(slide, x1, y1, x2, y2, color)` (lines 105-109): a straight
connector from (x1, y1) to (x2, y2) with a 2pt colored line; returns it. -/
def arrow (slide : Slide) (x1 y1 x2 y2 : Int) (color : RGBColor) :
    Slide × Shape :=
  let conn : Shape :=
    { kind := ShapeKind.connector MSO_CONNECTOR.STRAIGHT x1 y1 x2 y2,
      line := { color := some color, width := some (Pt 2) } }
  (slide.appendShape conn, conn)

/-- `flow_box(slide, x, y, w, h, text, accent)` (lines 112-125): a rounded
rectangle at (x, y, w, h) with an accent-colored 2pt border and one centered
bold 16pt run; returns the box. -/
def flow_box (slide : Slide) (x y w h : Int) (text : String)
    (accent : RGBColor) : Slide × Shape :=
  let p : Paragraph :=
    { alignment := some PP_ALIGN.CENTER, runs := [_set_text {} text 16 true INK] }
  let box : Shape :=
    { kind := ShapeKind.autoShape MSO_AUTO_SHAPE_TYPE.ROUNDED_RECTANGLE x y w h,
      fill := { solid := true, foreColor := some ⟨2, 6, 23⟩,
                transparency := some 18 },
      line := { color := some accent, width := some (Pt 2) },
      textFrame := [p] }
  (slide.appendShape box, box)

/-- `slide.shapes.add_picture(path, left, top, width, height)`: opens the
file at `path` — raising when it does not exist (`fs path = false`) — and
otherwise appends a picture shape. -/
def add_picture (fs : String → Bool) (slide : Slide) (path : String)
    (left top : Int) (width height : Option Int) : Except PptxError Slide :=
  if fs path then
    Except.ok (slide.appendShape
      { kind := ShapeKind.picture path left top width height })
  else
    Except.error (PptxError.fileNotFound path)

/-- `make()` (lines 128-378): builds the ten slides in order and then saves
the presentation to `OUT` and prints a confirmation line. The filesystem is
the predicate `fs`; the only fallible steps are the four `add_picture` calls
(cover on slide 1, architecture on slides 2 and 4, ai-healing on slide 7).
On success the result carries the assembled presentation together with the
effect list produced by the final two statements, in order:
`prs.save(str(OUT))` then `print(f"Created: ...")`. An error aborts the run
before those statements, so no effect is produced. -/
def make (fs : String → Bool) : Except PptxError (Pres × List Effect) := do
  let slide_width := Inches 13333
  let slide_height := Inches 7500
  let cover := ASSETS ++ "/cover.png"
  let arch := ASSETS ++ "/architecture.png"
  let heal := ASSETS ++ "/ai-healing.png"
  -- Slide 1: Cover
  let s : Slide := {}
  let s := s.backgroundSolid
  let s := s.backgroundColorRgb BG
  let s ← add_picture fs s cover (Inches 0) (Inches 0) (some slide_width)
    (some slide_height)
  let s := add_title s "Selenium Automation Framework"
    (some "Java 17 • TestNG • Smart Actions • AI Auto‑Healing (Optional)")
  let s := add_footer s "Automation Assignment • Framework Demo"
  let s1 := s
  -- Slide 2: What it delivers
  let s : Slide := {}
  let s := s.backgroundSolid
  let s := s.backgroundColorRgb BG
  let s := add_title s "What this framework delivers"
    (some "Maintainability • Stability • Resilience")
  let s := kpi_card s (Inches 900) (Inches 2200) (Inches 3900) (Inches 1200)
    "Stability" "Explicit waits" C1
  let s := kpi_card s (Inches 900) (Inches 3550) (Inches 3900) (Inches 1200)
    "Maintainability" "POM + annotations" C2
  let s := kpi_card s (Inches 900) (Inches 4900) (Inches 3900) (Inches 1200)
    "Resilience" "AI healing + audit" C3
  let (s, _) := add_bullets s (Inches 900) (Inches 6200) (Inches 6200)
    (Inches 700)
    ["Low setup with Selenium Manager",
     "Centralized waits + smart actions",
     "Safety: redaction, cache, validation"] 16
  let s ← add_picture fs s arch (Inches 7100) (Inches 2200) (some (Inches 5500))
    none
  let s := add_footer s "Slide 2/10"
  let s2 := s
  -- Slide 3: Problem statement (diagram)
  let s : Slide := {}
  let s := s.backgroundSolid
  let s := s.backgroundColorRgb BG
  let s := add_title s "The problem we solve"
    (some "UI changes cause fragile selectors and maintenance cost")
  let (s, b1) := flow_box s (Inches 1000) (Inches 2700) (Inches 2600) (Inches 900)
    "UI Changes" C4
  let (s, b2) := flow_box s (Inches 4000) (Inches 2700) (Inches 2600) (Inches 900)
    "Broken Selectors" C2
  let (s, b3) := flow_box s (Inches 7000) (Inches 2700) (Inches 2600) (Inches 900)
    "Test Failures" C1
  let (s, b4) := flow_box s (Inches 10000) (Inches 2700) (Inches 2600)
    (Inches 900) "Maintenance Cost" C3
  let (s, _) := arrow s (b1.left + b1.width) (b1.top + b1.height / 2) b2.left
    (b2.top + b2.height / 2) MUTED
  let (s, _) := arrow s (b2.left + b2.width) (b2.top + b2.height / 2) b3.left
    (b3.top + b3.height / 2) MUTED
  let (s, _) := arrow s (b3.left + b3.width) (b3.top + b3.height / 2) b4.left
    (b4.top + b4.height / 2) MUTED
  let (s, _) := add_bullets s (Inches 1000) (Inches 4300) (Inches 11600)
    (Inches 2600)
    ["Flaky runs due to timing and dynamic DOM",
     "Selector churn during UI releases",
     "Boilerplate waits and locators repeated across tests",
     "Limited traceability on what changed and why"] 18
  let s := add_footer s "Slide 3/10"
  let s3 := s
  -- Slide 4: Architecture
  let s : Slide := {}
  let s := s.backgroundSolid
  let s := s.backgroundColorRgb BG
  let s := add_title s "Architecture overview"
    (some "Layered design with clear responsibilities")
  let s ← add_picture fs s arch (Inches 900) (Inches 2200) (some (Inches 6100))
    none
  let (s, _) := add_bullets s (Inches 7300) (Inches 2300) (Inches 5100)
    (Inches 4800)
    ["Tests (TestNG): call page actions",
     "Pages: business actions + @SeleniumSelector",
     "Core: waits + smart actions + element wiring",
     "AI (optional): healing with audit log",
     "Utilities: JSON + HTML cleaning"] 18
  let s := add_footer s "Slide 4/10"
  let s4 := s
  -- Slide 5: Core building blocks
  let s : Slide := {}
  let s := s.backgroundSolid
  let s := s.backgroundColorRgb BG
  let s := add_title s "Core implementation"
    (some "How the framework works under the hood")
  let (s, cA) := flow_box s (Inches 1000) (Inches 2400) (Inches 3700) (Inches 1000)
    "SeleniumFactory\n(WebDriver lifecycle)" C1
  let (s, cB) := flow_box s (Inches 1000) (Inches 3800) (Inches 3700) (Inches 1000)
    "BasePage\n(waits + smart actions)" C2
  let (s, cC) := flow_box s (Inches 5200) (Inches 2400) (Inches 3700) (Inches 1000)
    "ElementInitializer\n(reflection wiring)" C3
  let (s, cD) := flow_box s (Inches 5200) (Inches 3800) (Inches 3700) (Inches 1000)
    "SmartElement\n(By + driver)" C4
  let (s, _) := arrow s (cA.left + cA.width) (cA.top + cA.height / 2) cC.left
    (cC.top + cC.height / 2) MUTED
  let (s, _) := arrow s (cB.left + cB.width) (cB.top + cB.height / 2) cD.left
    (cD.top + cD.height / 2) MUTED
  let (s, _) := add_bullets s (Inches 9300) (Inches 2400) (Inches 3900)
    (Inches 4200)
    ["Explicit waits (10s default)",
     "CSS selectors by default",
     "XPath via prefix: xpath=...",
     "Minimal boilerplate in tests"] 18
  let s := add_footer s "Slide 5/10"
  let s5 := s
  -- Slide 6: Smart actions
  let s : Slide := {}
  let s := s.backgroundSolid
  let s := s.backgroundColorRgb BG
  let s := add_title s "Smart Actions"
    (some "Stable by default; healing only on failure")
  let (s, _) := add_bullets s (Inches 900) (Inches 2200) (Inches 6300)
    (Inches 4800)
    ["smartClick(selector): wait → click",
     "smartFill(selector, value): wait → clear → type",
     "On TimeoutException → healing attempt (1 retry)",
     "StaleElementReferenceException → retry once (no AI)"] 20
  -- Visual ladder
  let (s, step1) := flow_box s (Inches 7400) (Inches 2300) (Inches 5200)
    (Inches 750) "Parse selector → By" C1
  let (s, step2) := flow_box s (Inches 7400) (Inches 3200) (Inches 5200)
    (Inches 750) "Explicit wait (visibility/clickable)" C2
  let (s, step3) := flow_box s (Inches 7400) (Inches 4100) (Inches 5200)
    (Inches 750) "Perform action (click/type)" C3
  let (s, step4) := flow_box s (Inches 7400) (Inches 5000) (Inches 5200)
    (Inches 750) "If timeout → AI heal → validate → retry once" C4
  let (s, _) := arrow s (step1.left + step1.width / 2)
    (step1.top + step1.height) (step2.left + step2.width / 2) step2.top MUTED
  let (s, _) := arrow s (step2.left + step2.width / 2)
    (step2.top + step2.height) (step3.left + step3.width / 2) step3.top MUTED
  let (s, _) := arrow s (step3.left + step3.width / 2)
    (step3.top + step3.height) (step4.left + step4.width / 2) step4.top MUTED
  let s := add_footer s "Slide 6/10"
  let s6 := s
  -- Slide 7: AI healing pipeline
  let s : Slide := {}
  let s := s.backgroundSolid
  let s := s.backgroundColorRgb BG
  let s := add_title s "AI Healing pipeline"
    (some "Optional • audited • designed with safety guardrails")
  let s ← add_picture fs s heal (Inches 900) (Inches 2200) (some (Inches 6200))
    none
  let (s, _) := add_bullets s (Inches 7400) (Inches 2300) (Inches 5200)
    (Inches 4900)
    ["Trigger: action times out (TimeoutException)",
     "Capture HTML via getPageSource()",
     "Clean + redact sensitive values (best-effort)",
     "Ask LLM for replacement selector (if configured)",
     "Validate healed selector → retry once",
     "Audit log: logs/ai-healing-audit.log"] 18
  let s := add_footer s "Slide 7/10"
  let s7 := s
  -- Slide 8: Hardening: cache + validation
  let s : Slide := {}
  let s := s.backgroundSolid
  let s := s.backgroundColorRgb BG
  let s := add_title s "AI hardening (real projects)"
    (some "Redaction • Healing cache • Selector validation")
  let (s, hb1) := flow_box s (Inches 1000) (Inches 2500) (Inches 3600)
    (Inches 900) "Cache lookup\nhealing-cache.json" C3
  let (s, hb2) := flow_box s (Inches 5000) (Inches 2500) (Inches 3600)
    (Inches 900) "Validate selector\n(unique + actionable)" C1
  let (s, hb3) := flow_box s (Inches 9000) (Inches 2500) (Inches 3600)
    (Inches 900) "Retry once\n(or bypass cache)" C4
  let (s, _) := arrow s (hb1.left + hb1.width) (hb1.top + hb1.height / 2)
    hb2.left (hb2.top + hb2.height / 2) MUTED
  let (s, _) := arrow s (hb2.left + hb2.width) (hb2.top + hb2.height / 2)
    hb3.left (hb3.top + hb3.height / 2) MUTED
  let (s, _) := add_bullets s (Inches 1000) (Inches 3800) (Inches 11600)
    (Inches 3000)
    ["Cache reduces repeated LLM calls and speeds up healing",
     "Validation prevents wrong/stale selectors from hiding real issues",
     "If cached selector is invalid: bypass cache once and request fresh heal",
     "Override cache path: mvn test -Dhealing.cache.path=...json"] 18
  let s := add_footer s "Slide 8/10"
  let s8 := s
  -- Slide 9: Demo story
  let s : Slide := {}
  let s := s.backgroundSolid
  let s := s.backgroundColorRgb BG
  let s := add_title s "Demo story" (some "Login test flow + evidence artifacts")
  let (s, _) := add_bullets s (Inches 900) (Inches 2200) (Inches 7000)
    (Inches 4800)
    ["Test creates driver via SeleniumFactory",
     "LoginPage exposes clear actions (enterUsername, enterPassword, clickLogin)",
     "Smart actions add stability and optional healing on failures",
     "Evidence: ai-healing-audit.log + healing-cache.json"] 20
  let (s, _) := flow_box s (Inches 8200) (Inches 2600) (Inches 4400) (Inches 850)
    "Run: mvn test" C2
  let (s, _) := flow_box s (Inches 8200) (Inches 3700) (Inches 4400) (Inches 850)
    "Audit: logs/ai-healing-audit.log" C4
  let (s, _) := flow_box s (Inches 8200) (Inches 4800) (Inches 4400) (Inches 850)
    "Cache: healing-cache.json" C3
  let s := add_footer s "Slide 9/10"
  let s9 := s
  -- Slide 10: Summary / Why
  let s : Slide := {}
  let s := s.backgroundSolid
  let s := s.backgroundColorRgb BG
  let s := add_title s "Why this framework"
    (some "Clean • Reliable • Explainable • Resilient")
  let s := kpi_card s (Inches 900) (Inches 2300) (Inches 4000) (Inches 1300)
    "Clarity" "Page Object Model" C2
  let s := kpi_card s (Inches 900) (Inches 3750) (Inches 4000) (Inches 1300)
    "Reliability" "Explicit waits" C1
  let s := kpi_card s (Inches 900) (Inches 5200) (Inches 4000) (Inches 1300)
    "Resilience" "AI healing (optional)" C3
  let (s, _) := add_bullets s (Inches 5300) (Inches 2300) (Inches 7000)
    (Inches 4600)
    ["Designed to reduce flakiness and locator maintenance",
     "AI hardening: redaction + cache + validation guardrails",
     "Audit trail provides traceability for assignments and real teams",
     "Future scope: ThreadLocal drivers, reporting, screenshots"] 20
  let (s, _) := flow_box s (Inches 5300) (Inches 6300) (Inches 7000) (Inches 750)
    "Thank you — Questions?" C4
  let s := add_footer s "Slide 10/10"
  let s10 := s
  let prs : Pres :=
    { slide_width := slide_width, slide_height := slide_height,
      slides := [s1, s2, s3, s4, s5, s6, s7, s8, s9, s10] }
  let effects := [Effect.write OUT prs, Effect.print ("Created: " ++ OUT)]
  pure (prs, effects)

/-! ## Derived notions used to state the claims -/

/-- The title block added by `add_title` is recognizable as the rounded
rectangle at Inches(0.7), Inches(0.6) of size 12.0 × 1.4 inches (no other
shape the script creates has this geometry). -/
def isTitleBlock (sh : Shape) : Bool :=
  match sh.kind with
  | ShapeKind.autoShape MSO_AUTO_SHAPE_TYPE.ROUNDED_RECTANGLE l t w h =>
      decide (l = Inches 700) && decide (t = Inches 600) &&
        decide (w = Inches 12000) && decide (h = Inches 1400)
  | _ => false

/-- The text of the first run of the first paragraph of a shape. -/
def firstRunText (sh : Shape) : Option String :=
  match sh.textFrame with
  | p :: _ =>
      match p.runs with
      | r :: _ => some r.text
      | [] => none
  | [] => none

/-- The slide's title: the first run of its title block's text frame. -/
def titleOf (s : Slide) : Option String :=
  (s.shapes.find? isTitleBlock).bind firstRunText

/-! ## Shared lemmas -/

/-- `bind` on `Except.ok` steps into the continuation. -/
theorem except_bind_ok {ε α β : Type} (a : α) (f : α → Except ε β) :
    (Except.ok a : Except ε α) >>= f = f a := rfl

/-- `bind` on `Except.error` short-circuits: nothing after the failing
statement runs. -/
theorem except_bind_error {ε α β : Type} (e : ε) (f : α → Except ε β) :
    (Except.error e : Except ε α) >>= f = Except.error e := rfl

/-- When the three asset files exist, `make` behaves exactly as on a
filesystem where every path exists: the asset checks are the only reads. -/
theorem make_ok_eq (fs : String → Bool)
    (h1 : fs (ASSETS ++ "/cover.png") = true)
    (h2 : fs (ASSETS ++ "/architecture.png") = true)
    (h3 : fs (ASSETS ++ "/ai-healing.png") = true) :
    make fs = make (fun _ => true) := by
  simp only [make, add_picture, h1, h2, h3]

/-! ## Claims -/

/-- C1: the document produced by `make()` contains exactly ten slides, and
their titles appear in the fixed order given in the source, with slide 1
titled "Selenium Automation Framework" and slide 10 titled
"Why this framework". -/
theorem claim_C1_ten_slides_fixed_titles (fs : String → Bool)
    (h1 : fs (ASSETS ++ "/cover.png") = true)
    (h2 : fs (ASSETS ++ "/architecture.png") = true)
    (h3 : fs (ASSETS ++ "/ai-healing.png") = true) :
    (make fs).toOption.map
        (fun pe => (pe.1.slides.length, pe.1.slides.map titleOf)) =
      some (10,
        [some "Selenium Automation Framework",
         some "What this framework delivers",
         some "The problem we solve",
         some "Architecture overview",
         some "Core implementation",
         some "Smart Actions",
         some "AI Healing pipeline",
         some "AI hardening (real projects)",
         some "Demo story",
         some "Why this framework"]) := by
  rw [make_ok_eq fs h1 h2 h3]
  decide

/-- Witness for C1 on the filesystem where every path exists. -/
theorem claim_C1_witness :
    (make (fun _ => true)).toOption.map
        (fun pe => (pe.1.slides.length, pe.1.slides.map titleOf)) =
      some (10,
        [some "Selenium Automation Framework",
         some "What this framework delivers",
         some "The problem we solve",
         some "Architecture overview",
         some "Core implementation",
         some "Smart Actions",
         some "AI Healing pipeline",
         some "AI hardening (real projects)",
         some "Demo story",
         some "Why this framework"]) :=
  claim_C1_ten_slides_fixed_titles (fun _ => true) rfl rfl rfl

/-- C2: running `make()` twice over the same asset files yields structurally
identical output — the same slide count and, slide by slide, the same shapes
in the same order (hence the same text). -/
theorem claim_C2_determinism (fs fs' : String → Bool)
    (hsame : ∀ p, fs p = fs' p)
    (p1 : Pres) (e1 : List Effect) (p2 : Pres) (e2 : List Effect)
    (hrun1 : make fs = Except.ok (p1, e1))
    (hrun2 : make fs' = Except.ok (p2, e2)) :
    p1.slides.length = p2.slides.length ∧
      p1.slides.map Slide.shapes = p2.slides.map Slide.shapes := by
  have hfs : fs = fs' := funext hsame
  subst hfs
  have h := hrun1.symm.trans hrun2
  simp only [Except.ok.injEq, Prod.mk.injEq] at h
  obtain ⟨rfl, rfl⟩ := h
  exact ⟨rfl, rfl⟩

/-- Witness for C2: two runs over the all-files-present filesystem. -/
theorem claim_C2_witness :
    ∃ p e, make (fun _ => true) = Except.ok (p, e) ∧
      p.slides.length = p.slides.length ∧
      p.slides.map Slide.shapes = p.slides.map Slide.shapes := by
  have hs : (make (fun _ => true)).toOption.isSome = true := by decide
  cases hmk : make (fun _ => true) with
  | error e => rw [hmk] at hs; simp [Except.toOption] at hs
  | ok pe =>
    obtain ⟨p, e⟩ := pe
    exact ⟨p, e, rfl,
      claim_C2_determinism (fun _ => true) (fun _ => true) (fun _ => rfl)
        p e p e hmk hmk⟩

/-- C3: if any of the three required images (cover.png, architecture.png,
ai-healing.png) is absent, `make()` raises `fileNotFound` for one of those
assets during slide construction — the run never reaches the final
`prs.save`, so it produces no success value and hence no write or print
effect. -/
theorem claim_C3_missing_asset_aborts (fs : String → Bool)
    (hmiss : fs (ASSETS ++ "/cover.png") = false ∨
      fs (ASSETS ++ "/architecture.png") = false ∨
      fs (ASSETS ++ "/ai-healing.png") = false) :
    (∃ path, make fs = Except.error (PptxError.fileNotFound path) ∧
        (path = ASSETS ++ "/cover.png" ∨ path = ASSETS ++ "/architecture.png" ∨
          path = ASSETS ++ "/ai-healing.png")) ∧
      ∀ p effs, make fs ≠ Except.ok (p, effs) := by
  have key : ∃ path, make fs = Except.error (PptxError.fileNotFound path) ∧
      (path = ASSETS ++ "/cover.png" ∨ path = ASSETS ++ "/architecture.png" ∨
        path = ASSETS ++ "/ai-healing.png") := by
    cases hc : fs (ASSETS ++ "/cover.png") with
    | false =>
      exact ⟨ASSETS ++ "/cover.png",
        by simp [make, add_picture, hc, except_bind_ok, except_bind_error],
        Or.inl rfl⟩
    | true =>
      cases ha : fs (ASSETS ++ "/architecture.png") with
      | false =>
        exact ⟨ASSETS ++ "/architecture.png",
          by simp [make, add_picture, hc, ha, except_bind_ok, except_bind_error],
          Or.inr (Or.inl rfl)⟩
      | true =>
        cases hh : fs (ASSETS ++ "/ai-healing.png") with
        | false =>
          exact ⟨ASSETS ++ "/ai-healing.png",
            by simp [make, add_picture, hc, ha, hh, except_bind_ok,
              except_bind_error],
            Or.inr (Or.inr rfl)⟩
        | true =>
          exfalso
          rcases hmiss with h | h | h
          · rw [h] at hc; exact Bool.noConfusion hc
          · rw [h] at ha; exact Bool.noConfusion ha
          · rw [h] at hh; exact Bool.noConfusion hh
  refine ⟨key, ?_⟩
  obtain ⟨path, hpath, _⟩ := key
  intro p effs hok
  rw [hok] at hpath
  exact Except.noConfusion hpath

/-- Witness for C3 on the filesystem with no files at all. -/
theorem claim_C3_witness :
    (∃ path, make (fun _ => false) =
        Except.error (PptxError.fileNotFound path) ∧
        (path = ASSETS ++ "/cover.png" ∨ path = ASSETS ++ "/architecture.png" ∨
          path = ASSETS ++ "/ai-healing.png")) ∧
      ∀ p effs, make (fun _ => false) ≠ Except.ok (p, effs) :=
  claim_C3_missing_asset_aborts (fun _ => false) (Or.inl rfl)

/-- Whether the point (x, y) lies on the boundary of the axis-aligned box
with top-left corner (l, t), width w and height h. -/
def onBoundary (x y l t w h : Int) : Bool :=
  ((decide (x = l) || decide (x = l + w)) && decide (t ≤ y) &&
      decide (y ≤ t + h)) ||
    ((decide (y = t) || decide (y = t + h)) && decide (l ≤ x) &&
      decide (x ≤ l + w))

/-- Every connector of the slide begins on the boundary of some rounded
rectangle / rectangle of the slide (a flow box or card) and ends on the
boundary of some such shape. -/
def connectorEndpointsOnBoundaries (s : Slide) : Bool :=
  s.shapes.all fun sh =>
    match sh.kind with
    | ShapeKind.connector _ x1 y1 x2 y2 =>
        (s.shapes.any fun a =>
          match a.kind with
          | ShapeKind.autoShape _ l t w h => onBoundary x1 y1 l t w h
          | _ => false) &&
          (s.shapes.any fun b =>
            match b.kind with
            | ShapeKind.autoShape _ l t w h => onBoundary x2 y2 l t w h
            | _ => false)
    | _ => true

/-- Every horizontal connector of the slide (equal begin/end y) begins at the
midpoint of the right edge of some box of the slide and ends at the midpoint
of the left edge of some box of the slide. -/
def horizontalArrowsMidEdges (s : Slide) : Bool :=
  s.shapes.all fun sh =>
    match sh.kind with
    | ShapeKind.connector _ x1 y1 x2 y2 =>
        if y1 = y2 then
          (s.shapes.any fun a =>
            match a.kind with
            | ShapeKind.autoShape _ l t w h =>
                decide (x1 = l + w) && decide (y1 = t + h / 2)
            | _ => false) &&
            (s.shapes.any fun b =>
              match b.kind with
              | ShapeKind.autoShape _ l t _w h =>
                  decide (x2 = l) && decide (y2 = t + h / 2)
              | _ => false)
        else true
    | _ => true

/-- C4: every connector drawn by `make()` has both endpoints on the boundary
of boxes of its slide, and every horizontal flow-diagram arrow runs from the
midpoint of the right edge of a box to the midpoint of the left edge of a
box. -/
theorem claim_C4_connector_endpoints (fs : String → Bool)
    (h1 : fs (ASSETS ++ "/cover.png") = true)
    (h2 : fs (ASSETS ++ "/architecture.png") = true)
    (h3 : fs (ASSETS ++ "/ai-healing.png") = true) :
    (make fs).toOption.map
        (fun pe => pe.1.slides.all fun s =>
          connectorEndpointsOnBoundaries s && horizontalArrowsMidEdges s) =
      some true := by
  rw [make_ok_eq fs h1 h2 h3]
  decide

/-- Witness for C4 on the filesystem where every path exists. -/
theorem claim_C4_witness :
    (make (fun _ => true)).toOption.map
        (fun pe => pe.1.slides.all fun s =>
          connectorEndpointsOnBoundaries s && horizontalArrowsMidEdges s) =
      some true :=
  claim_C4_connector_endpoints (fun _ => true) rfl rfl rfl

/-- All run texts of a slide, shape by shape, paragraph by paragraph. -/
def Slide.runTexts (s : Slide) : List String :=
  (s.shapes.map fun sh =>
    (sh.textFrame.map fun p => p.runs.map Run.text).flatten).flatten

/-- The literal title string, subtitle string and bullet strings that `make`
passes for each of the ten slides, in slide order (titles and subtitles from
the `add_title` calls, bullets from the `add_bullets` calls). -/
def literalSlideTexts : List (List String) :=
  [["Selenium Automation Framework",
    "Java 17 • TestNG • Smart Actions • AI Auto‑Healing (Optional)"],
   ["What this framework delivers",
    "Maintainability • Stability • Resilience",
    "Low setup with Selenium Manager",
    "Centralized waits + smart actions",
    "Safety: redaction, cache, validation"],
   ["The problem we solve",
    "UI changes cause fragile selectors and maintenance cost",
    "Flaky runs due to timing and dynamic DOM",
    "Selector churn during UI releases",
    "Boilerplate waits and locators repeated across tests",
    "Limited traceability on what changed and why"],
   ["Architecture overview",
    "Layered design with clear responsibilities",
    "Tests (TestNG): call page actions",
    "Pages: business actions + @SeleniumSelector",
    "Core: waits + smart actions + element wiring",
    "AI (optional): healing with audit log",
    "Utilities: JSON + HTML cleaning"],
   ["Core implementation",
    "How the framework works under the hood",
    "Explicit waits (10s default)",
    "CSS selectors by default",
    "XPath via prefix: xpath=...",
    "Minimal boilerplate in tests"],
   ["Smart Actions",
    "Stable by default; healing only on failure",
    "smartClick(selector): wait → click",
    "smartFill(selector, value): wait → clear → type",
    "On TimeoutException → healing attempt (1 retry)",
    "StaleElementReferenceException → retry once (no AI)"],
   ["AI Healing pipeline",
    "Optional • audited • designed with safety guardrails",
    "Trigger: action times out (TimeoutException)",
    "Capture HTML via getPageSource()",
    "Clean + redact sensitive values (best-effort)",
    "Ask LLM for replacement selector (if configured)",
    "Validate healed selector → retry once",
    "Audit log: logs/ai-healing-audit.log"],
   ["AI hardening (real projects)",
    "Redaction • Healing cache • Selector validation",
    "Cache reduces repeated LLM calls and speeds up healing",
    "Validation prevents wrong/stale selectors from hiding real issues",
    "If cached selector is invalid: bypass cache once and request fresh heal",
    "Override cache path: mvn test -Dhealing.cache.path=...json"],
   ["Demo story",
    "Login test flow + evidence artifacts",
    "Test creates driver via SeleniumFactory",
    "LoginPage exposes clear actions (enterUsername, enterPassword, clickLogin)",
    "Smart actions add stability and optional healing on failures",
    "Evidence: ai-healing-audit.log + healing-cache.json"],
   ["Why this framework",
    "Clean • Reliable • Explainable • Resilient",
    "Designed to reduce flakiness and locator maintenance",
    "AI hardening: redaction + cache + validation guardrails",
    "Audit trail provides traceability for assignments and real teams",
    "Future scope: ThreadLocal drivers, reporting, screenshots"]]

/-- C5: every literal title, subtitle and bullet string passed to a slide in
`make()` appears verbatim among that slide's run texts in the output. -/
theorem claim_C5_text_fidelity (fs : String → Bool)
    (h1 : fs (ASSETS ++ "/cover.png") = true)
    (h2 : fs (ASSETS ++ "/architecture.png") = true)
    (h3 : fs (ASSETS ++ "/ai-healing.png") = true) :
    (make fs).toOption.map
        (fun pe =>
          decide (pe.1.slides.length = literalSlideTexts.length) &&
            (pe.1.slides.zip literalSlideTexts).all fun se =>
              se.2.all fun t => se.1.runTexts.contains t) =
      some true := by
  rw [make_ok_eq fs h1 h2 h3]
  decide

/-- Witness for C5 on the filesystem where every path exists. -/
theorem claim_C5_witness :
    (make (fun _ => true)).toOption.map
        (fun pe =>
          decide (pe.1.slides.length = literalSlideTexts.length) &&
            (pe.1.slides.zip literalSlideTexts).all fun se =>
              se.2.all fun t => se.1.runTexts.contains t) =
      some true :=
  claim_C5_text_fidelity (fun _ => true) rfl rfl rfl

/-- C6 counterexample: conditionals are not absent from the source. The
embedded `add_title` mirrors the branch `if subtitle:` of lines 51-55, and
its two branches produce different title blocks: with no subtitle the title
box has one paragraph, with a subtitle it has two. (`add_bullets` lines
72-73 likewise selects a paragraph by loop index.) -/
theorem claim_C6_counterexample :
    (add_title {} "T" none).shapes ≠ (add_title {} "T" (some "S")).shapes := by
  decide

/-- C6 (amended): `make()` branches on no runtime condition beyond the
presence of the three required image assets — on any two filesystems that
contain them, it performs the same pass and produces identical output, so
every slide's content is unconditional; the conditionals that do occur in
the source (in `add_title` and `add_bullets`) are exercised only with the
fixed literal arguments of `make`. -/
theorem claim_C6_no_runtime_branching (fs fs' : String → Bool)
    (h1 : fs (ASSETS ++ "/cover.png") = true)
    (h2 : fs (ASSETS ++ "/architecture.png") = true)
    (h3 : fs (ASSETS ++ "/ai-healing.png") = true)
    (h1' : fs' (ASSETS ++ "/cover.png") = true)
    (h2' : fs' (ASSETS ++ "/architecture.png") = true)
    (h3' : fs' (ASSETS ++ "/ai-healing.png") = true) :
    make fs = make fs' :=
  (make_ok_eq fs h1 h2 h3).trans (make_ok_eq fs' h1' h2' h3').symm

/-- Witness for C6 on two different filesystems that both hold the assets. -/
theorem claim_C6_witness :
    make (fun _ => true) = make (fun p => !decide (p = "missing")) :=
  claim_C6_no_runtime_branching (fun _ => true)
    (fun p => !decide (p = "missing")) rfl rfl rfl (by decide) (by decide)
    (by decide)

/-- The slide's op log never sets the background after a shape was added:
it is a (possibly empty) run of `setBackground` followed only by `addShape`. -/
def bgSetBeforeShapes (l : List SlideOp) : Bool :=
  (l.dropWhile fun op => decide (op = SlideOp.setBackground)).all
    fun op => decide (op = SlideOp.addShape)

/-- The slide's background is a solid fill of the theme color `BG`, and the
slide's first two mutations are the two background assignments
(`fill.solid()` and `fore_color.rgb = BG`), before any shape is added. -/
def slideBgOk (s : Slide) : Bool :=
  s.backgroundFill.solid && decide (s.backgroundFill.foreColor = some BG) &&
    decide (s.opsLog.take 2 = [SlideOp.setBackground, SlideOp.setBackground]) &&
    bgSetBeforeShapes s.opsLog

/-- C7: each of the ten slides has its background set to a solid fill of the
fixed theme color `BG`, and the background is set before any shape is added
to the slide. -/
theorem claim_C7_background_solid_bg (fs : String → Bool)
    (h1 : fs (ASSETS ++ "/cover.png") = true)
    (h2 : fs (ASSETS ++ "/architecture.png") = true)
    (h3 : fs (ASSETS ++ "/ai-healing.png") = true) :
    (make fs).toOption.map
        (fun pe => decide (pe.1.slides.length = 10) &&
          pe.1.slides.all slideBgOk) =
      some true := by
  rw [make_ok_eq fs h1 h2 h3]
  decide

/-- Witness for C7 on the filesystem where every path exists. -/
theorem claim_C7_witness :
    (make (fun _ => true)).toOption.map
        (fun pe => decide (pe.1.slides.length = 10) &&
          pe.1.slides.all slideBgOk) =
      some true :=
  claim_C7_background_solid_bg (fun _ => true) rfl rfl rfl

/-- C8: on success, the effects of `make()` are exactly one file write — of
the assembled presentation, at the fixed path `OUT` derived from the
script's directory — followed by exactly one line on standard output naming
that path; nothing else is written or printed. -/
theorem claim_C8_single_write_single_print (fs : String → Bool)
    (h1 : fs (ASSETS ++ "/cover.png") = true)
    (h2 : fs (ASSETS ++ "/architecture.png") = true)
    (h3 : fs (ASSETS ++ "/ai-healing.png") = true)
    (p : Pres) (effs : List Effect)
    (hrun : make fs = Except.ok (p, effs)) :
    effs = [Effect.write OUT p, Effect.print ("Created: " ++ OUT)] := by
  have key : (make (fun _ => true)).toOption.map
      (fun pe => decide (pe.2 = [Effect.write OUT pe.1,
        Effect.print ("Created: " ++ OUT)])) = some true := by decide
  rw [make_ok_eq fs h1 h2 h3] at hrun
  rw [hrun] at key
  simp only [Except.toOption, Option.map_some', Option.some.injEq,
    decide_eq_true_eq] at key
  exact key

/-- Witness for C8 on the filesystem where every path exists. -/
theorem claim_C8_witness :
    ∃ p effs, make (fun _ => true) = Except.ok (p, effs) ∧
      effs = [Effect.write OUT p, Effect.print ("Created: " ++ OUT)] := by
  have hs : (make (fun _ => true)).toOption.isSome = true := by decide
  cases hmk : make (fun _ => true) with
  | error e => rw [hmk] at hs; simp [Except.toOption] at hs
  | ok pe =>
    obtain ⟨p, e⟩ := pe
    exact ⟨p, e, rfl,
      claim_C8_single_write_single_print (fun _ => true) rfl rfl rfl p e hmk⟩

/-- C9: `add_bullets` with an empty items list still adds a textbox to the
slide and returns it, and the textbox's text frame holds exactly one empty
paragraph (the cleared paragraph; the loop body never runs). -/
theorem claim_C9_empty_bullets_textbox (s : Slide) (x y w h font_size : Int) :
    (add_bullets s x y w h [] font_size).1.shapes =
        s.shapes ++ [(add_bullets s x y w h [] font_size).2] ∧
      (add_bullets s x y w h [] font_size).2.kind =
        ShapeKind.textbox x y w h ∧
      (add_bullets s x y w h [] font_size).2.textFrame = [({} : Paragraph)] :=
  ⟨rfl, rfl, rfl⟩

/-- C10: `kpi_card` adds exactly two shapes — the rounded-rectangle card at
the given position and size, then the accent bar at the card's top-left
corner, `Inches(0.10)` wide (100 in thousandths), as tall as the card, and
solid-filled with the accent color. -/
theorem claim_C10_kpi_card_two_shapes (s : Slide) (x y w h : Int)
    (heading value : String) (accent : RGBColor) :
    ∃ card bar, (kpi_card s x y w h heading value accent).shapes =
        s.shapes ++ [card, bar] ∧
      card.kind =
        ShapeKind.autoShape MSO_AUTO_SHAPE_TYPE.ROUNDED_RECTANGLE x y w h ∧
      bar.kind =
        ShapeKind.autoShape MSO_AUTO_SHAPE_TYPE.RECTANGLE x y (Inches 100) h ∧
      bar.fill = { solid := true, foreColor := some accent } := by
  refine
    ⟨{ kind := ShapeKind.autoShape MSO_AUTO_SHAPE_TYPE.ROUNDED_RECTANGLE x y w h,
       fill := { solid := true, foreColor := some ⟨2, 6, 23⟩,
                 transparency := some 18 },
       line := { color := some ⟨255, 255, 255⟩, transparency := some 86 },
       textFrame := [{ runs := [_set_text {} heading 12 false MUTED] },
                     { runs := [_set_text {} value 18 true INK] }] },
     { kind := ShapeKind.autoShape MSO_AUTO_SHAPE_TYPE.RECTANGLE x y
         (Inches 100) h,
       fill := { solid := true, foreColor := some accent },
       line := { fill := { background := true } } },
     ?_, rfl, rfl, rfl⟩
  show (s.shapes ++ [_]) ++ [_] = s.shapes ++ [_, _]
  rw [List.append_assoc]
  rfl

end CreatePptx
